import Mathlib

/-!
Verification of the EOS base class of the riemann repository
(source file: VarFcnBase.h).

State vectors are 5-tuples of exact rationals (the C code uses doubles;
we verify the algebra in exact arithmetic).  An implemented EOS variant
is a record of the five contract relations together with the material
parameters (rhomin, pmin) and the verbosity flag bound at construction.
A call to the process-terminating facade exit_mpi() is modelled as an
Option/Except error value: none (or Except.error) means the evaluation
terminated fatally and no value was returned through the normal path.
Diagnostic prints (fprintf / print_error) have no observable effect on
the returned data and are not modelled, except that the fixed message
of each unimplemented base relation is carried in its Except.error.
-/

/-- A 5-component state vector, as the double* arrays V and U of the
source.  Primitive states are (rho, u, v, w, p); conservative states
are (rho, rho*u, rho*v, rho*w, E). -/
structure Vec5 where
  x0 : ℚ
  x1 : ℚ
  x2 : ℚ
  x3 : ℚ
  x4 : ℚ
deriving DecidableEq

/-- An implemented EOS variant: the five contract relations (virtual
functions overridden by a concrete subclass of VarFcnBase), plus the
material parameters rhomin, pmin and the verbose flag stored in the
base object by its constructor. -/
structure VarFcn where
  rhomin : ℚ
  pmin : ℚ
  verbose : Bool
  GetPressure : ℚ → ℚ → ℚ
  GetInternalEnergyPerUnitMass : ℚ → ℚ → ℚ
  GetDensity : ℚ → ℚ → ℚ
  GetDpdrho : ℚ → ℚ → ℚ
  GetBigGamma : ℚ → ℚ → ℚ

namespace VarFcnBase

/-- Base-class default of GetPressure: prints its diagnostic and calls
exit_mpi(); the trailing return 0.0 of the source is dead code after the
fatal exit, so the result is modelled as Except.error carrying the
printed message. -/
def GetPressure (_rho _e : ℚ) : Except String ℚ :=
  Except.error "*** Error:  GetPressure Function not defined\n"

/-- Base-class default of GetInternalEnergyPerUnitMass: diagnostic plus
fatal exit_mpi(), modelled as Except.error. -/
def GetInternalEnergyPerUnitMass (_rho _p : ℚ) : Except String ℚ :=
  Except.error "*** Error:  GetInternalEnergyPerUnitMass Function not defined\n"

/-- Base-class default of GetDensity: diagnostic plus fatal exit_mpi(),
modelled as Except.error. -/
def GetDensity (_p _e : ℚ) : Except String ℚ :=
  Except.error "*** Error:  GetDensity Function not defined\n"

/-- Base-class default of GetDpdrho: diagnostic plus fatal exit_mpi(),
modelled as Except.error. -/
def GetDpdrho (_rho _e : ℚ) : Except String ℚ :=
  Except.error "*** Error:  GetDpdrho Function not defined\n"

/-- Base-class default of GetBigGamma: diagnostic plus fatal exit_mpi(),
modelled as Except.error. -/
def GetBigGamma (_rho _e : ℚ) : Except String ℚ :=
  Except.error "*** Error:  GetBigGamma Function not defined\n"

end VarFcnBase

namespace VarFcn

/-- CheckState (VarFcnBase.h lines 75-84): computes e from (rho, p) and
the squared sound speed c2 = dpdrho + p/rho * BigGamma; returns true
("invalid") when rho <= 0 or c2 <= 0.  The C function only reads V and
its sole side effect is an optional warning print, so it is a pure
Boolean function here. -/
def CheckState (vf : VarFcn) (V : Vec5) : Bool :=
  let e := vf.GetInternalEnergyPerUnitMass V.x0 V.x4
  let c2 := vf.GetDpdrho V.x0 e + V.x4 / V.x0 * vf.GetBigGamma V.x0 e
  if V.x0 ≤ 0 ∨ c2 ≤ 0 then true else false

/-- ConservativeToPrimitive (VarFcnBase.h lines 106-119):
V0 = U0, invRho = 1/U0, V1..V3 = U1..U3 * invRho,
e = (U4 - 0.5*V0*(V1^2+V2^2+V3^2)) * invRho, V4 = GetPressure(V0, e).
Division follows the source literally; at U0 = 0 the C code divides by
zero (the class requires rho > 0 upstream). -/
def ConservativeToPrimitive (vf : VarFcn) (U : Vec5) : Vec5 :=
  let v0 := U.x0
  let invRho := 1 / U.x0
  let v1 := U.x1 * invRho
  let v2 := U.x2 * invRho
  let v3 := U.x3 * invRho
  let e := (U.x4 - (1/2) * v0 * (v1 * v1 + v2 * v2 + v3 * v3)) * invRho
  ⟨v0, v1, v2, v3, vf.GetPressure v0 e⟩

/-- PrimitiveToConservative (VarFcnBase.h lines 123-134):
U0 = V0, U1..U3 = V0 * V1..V3, e = GetInternalEnergyPerUnitMass(V0, V4),
U4 = V0*(e + 0.5*(V1^2+V2^2+V3^2)). -/
def PrimitiveToConservative (vf : VarFcn) (V : Vec5) : Vec5 :=
  let e := vf.GetInternalEnergyPerUnitMass V.x0 V.x4
  ⟨V.x0, V.x0 * V.x1, V.x0 * V.x2, V.x0 * V.x3,
    V.x0 * (e + (1/2) * (V.x1 * V.x1 + V.x2 * V.x2 + V.x3 * V.x3))⟩

/-- ComputeSoundSpeedSquare (VarFcnBase.h lines 153-156): returns
dpdrho + p/rho * BigGamma with no validity check and no fatal path. -/
def ComputeSoundSpeedSquare (vf : VarFcn) (rho e : ℚ) : ℚ :=
  vf.GetDpdrho rho e + vf.GetPressure rho e / rho * vf.GetBigGamma rho e

/-- ComputeSoundSpeed (VarFcnBase.h lines 139-148): computes
c2 = dpdrho + p/rho * BigGamma (the formula is inlined in the source,
duplicating ComputeSoundSpeedSquare); if c2 <= 0 it prints an error and
calls exit_mpi() (modelled as none), otherwise it returns sqrt(c2).
Since sqrt is irrational, the value carried by some is the radicand c2;
the double returned by the C function is the square root of that
payload. -/
def ComputeSoundSpeed (vf : VarFcn) (rho e : ℚ) : Option ℚ :=
  let c2 := vf.GetDpdrho rho e + vf.GetPressure rho e / rho * vf.GetBigGamma rho e
  if c2 ≤ 0 then none else some c2

/-- ComputeMachNumber (VarFcnBase.h lines 161-174): computes e from
(rho, p) = (V0, V4), then c = ComputeSoundSpeedSquare(V0, e); if c < 0
it prints an error and calls exit_mpi() (modelled as none), otherwise
c := sqrt(c) and the function returns sqrt(V1^2+V2^2+V3^2)/c.  The pair
carried by some is (V1^2+V2^2+V3^2, c2): the double returned by the C
function is sqrt of the first component divided by sqrt of the second. -/
def ComputeMachNumber (vf : VarFcn) (V : Vec5) : Option (ℚ × ℚ) :=
  let e := vf.GetInternalEnergyPerUnitMass V.x0 V.x4
  let c := vf.ComputeSoundSpeedSquare V.x0 e
  if c < 0 then none
  else some (V.x1 * V.x1 + V.x2 * V.x2 + V.x3 * V.x3, c)

/-- ComputeTotalEnthalpyPerUnitMass (VarFcnBase.h lines 179-183):
H = e + 0.5*(V1^2+V2^2+V3^2) + V4/V0 with
e = GetInternalEnergyPerUnitMass(V0, V4); no fatal path. -/
def ComputeTotalEnthalpyPerUnitMass (vf : VarFcn) (V : Vec5) : ℚ :=
  let e := vf.GetInternalEnergyPerUnitMass V.x0 V.x4
  e + (1/2) * (V.x1 * V.x1 + V.x2 * V.x2 + V.x3 * V.x3) + V.x4 / V.x0

/-- ClipDensityAndPressure (VarFcnBase.h lines 188-213): clamps V0 up to
rhomin and V4 up to pmin, setting the clip flag when either clamp fires;
if the flag is set and a conservative buffer U was supplied (the double*
U was non-null, modelled by Option), U is recomputed from the clamped V
via PrimitiveToConservative.  Returns (final V, final U, clip flag). -/
def ClipDensityAndPressure (vf : VarFcn) (V : Vec5) (U : Option Vec5) :
    Vec5 × Option Vec5 × Bool :=
  let s1 : Vec5 × Bool :=
    if V.x0 < vf.rhomin then ({ V with x0 := vf.rhomin }, true) else (V, false)
  let s2 : Vec5 × Bool :=
    if s1.1.x4 < vf.pmin then ({ s1.1 with x4 := vf.pmin }, true) else s1
  let Uout := if s2.2 then Option.map (fun _ => vf.PrimitiveToConservative s2.1) U else U
  (s2.1, Uout, s2.2)

end VarFcn

/-!  Concrete EOS variants used as test instances for witnesses and
counterexamples. -/

/-- A concrete EOS variant with affine pressure law p = e + rho and its
exact inverse e = p - rho (mutual inverses at every fixed rho), constant
dpdrho = 1 and BigGamma = 0, floors rhomin = pmin = 1. -/
def vfAffine : VarFcn where
  rhomin := 1
  pmin := 1
  verbose := false
  GetPressure := fun rho e => e + rho
  GetInternalEnergyPerUnitMass := fun rho p => p - rho
  GetDensity := fun _ _ => 0
  GetDpdrho := fun _ _ => 1
  GetBigGamma := fun _ _ => 0

/-- A concrete EOS variant whose contract relations all vanish, so the
squared sound speed is exactly 0 everywhere. -/
def vfZero : VarFcn where
  rhomin := 0
  pmin := 0
  verbose := false
  GetPressure := fun _ _ => 0
  GetInternalEnergyPerUnitMass := fun _ _ => 0
  GetDensity := fun _ _ => 0
  GetDpdrho := fun _ _ => 0
  GetBigGamma := fun _ _ => 0

/-- A concrete EOS variant with p = e + 1 and e = p - 1 (mutual inverses
at every fixed rho, including rho = 0) and no admissibility floors. -/
def vfShift : VarFcn where
  rhomin := 0
  pmin := 0
  verbose := false
  GetPressure := fun _ e => e + 1
  GetInternalEnergyPerUnitMass := fun _ p => p - 1
  GetDensity := fun _ _ => 0
  GetDpdrho := fun _ _ => 1
  GetBigGamma := fun _ _ => 0

namespace VarFcn

/-- Round trip primitive -> conservative -> primitive: exact whenever the
density is nonzero and GetPressure inverts GetInternalEnergyPerUnitMass
at that density. -/
theorem consToPrim_primToCons (vf : VarFcn) (V : Vec5) (hρ : V.x0 ≠ 0)
    (hinv : ∀ p, vf.GetPressure V.x0 (vf.GetInternalEnergyPerUnitMass V.x0 p) = p) :
    vf.ConservativeToPrimitive (vf.PrimitiveToConservative V) = V := by
  obtain ⟨v0, v1, v2, v3, v4⟩ := V
  simp only [Vec5.x0] at hρ hinv
  simp only [PrimitiveToConservative, ConservativeToPrimitive, Vec5.mk.injEq]
  have h1 : v0 * v1 * (1 / v0) = v1 := by field_simp
  have h2 : v0 * v2 * (1 / v0) = v2 := by field_simp
  have h3 : v0 * v3 * (1 / v0) = v3 := by field_simp
  refine ⟨trivial, h1, h2, h3, ?_⟩
  rw [h1, h2, h3]
  have he : (v0 * (vf.GetInternalEnergyPerUnitMass v0 v4
        + 1 / 2 * (v1 * v1 + v2 * v2 + v3 * v3))
      - 1 / 2 * v0 * (v1 * v1 + v2 * v2 + v3 * v3)) * (1 / v0)
      = vf.GetInternalEnergyPerUnitMass v0 v4 := by
    field_simp
    ring
  rw [he, hinv]

/-- Round trip conservative -> primitive -> conservative: exact whenever
the density is nonzero and GetInternalEnergyPerUnitMass inverts
GetPressure at that density. -/
theorem primToCons_consToPrim (vf : VarFcn) (U : Vec5) (hρ : U.x0 ≠ 0)
    (hinv : ∀ e, vf.GetInternalEnergyPerUnitMass U.x0 (vf.GetPressure U.x0 e) = e) :
    vf.PrimitiveToConservative (vf.ConservativeToPrimitive U) = U := by
  obtain ⟨u0, u1, u2, u3, u4⟩ := U
  simp only [Vec5.x0] at hρ hinv
  simp only [PrimitiveToConservative, ConservativeToPrimitive, Vec5.mk.injEq]
  refine ⟨trivial, by field_simp, by field_simp, by field_simp, ?_⟩
  rw [hinv]
  field_simp
  ring

end VarFcn

/-- Claim C7: CheckState(V) returns true ("invalid") iff rho <= 0 or the
squared sound speed, computed from e = GetInternalEnergyPerUnitMass(rho, p)
as GetDpdrho(rho,e) + (p/rho)*GetBigGamma(rho,e), is <= 0.  The model is a
pure Boolean function of V, mirroring the read-only C code: no fatal path
and no mutation of V. -/
theorem C7_checkState_iff (vf : VarFcn) (V : Vec5) :
    vf.CheckState V = true ↔
      (V.x0 ≤ 0 ∨
        vf.GetDpdrho V.x0 (vf.GetInternalEnergyPerUnitMass V.x0 V.x4)
          + V.x4 / V.x0 * vf.GetBigGamma V.x0 (vf.GetInternalEnergyPerUnitMass V.x0 V.x4) ≤ 0) := by
  simp only [VarFcn.CheckState]
  split <;> simp_all

/-- Claim C8: ComputeTotalEnthalpyPerUnitMass(V) equals
e + (1/2)*(u^2+v^2+w^2) + p/rho with e = GetInternalEnergyPerUnitMass(rho,p);
the function is total (no fatal path for any input). -/
theorem C8_totalEnthalpy (vf : VarFcn) (V : Vec5) (_h : V.x0 ≠ 0) :
    vf.ComputeTotalEnthalpyPerUnitMass V =
      vf.GetInternalEnergyPerUnitMass V.x0 V.x4
        + (1/2) * (V.x1 * V.x1 + V.x2 * V.x2 + V.x3 * V.x3) + V.x4 / V.x0 := rfl

/-- Witness for C8 at the concrete state (1,0,0,0,1) of the affine test
variant. -/
theorem C8_totalEnthalpy_witness :
    (1:ℚ) ≠ 0 ∧
    vfAffine.ComputeTotalEnthalpyPerUnitMass ⟨1, 0, 0, 0, 1⟩ =
      vfAffine.GetInternalEnergyPerUnitMass 1 1
        + (1/2) * ((0:ℚ) * 0 + 0 * 0 + 0 * 0) + 1 / 1 :=
  ⟨by decide, C8_totalEnthalpy vfAffine ⟨1, 0, 0, 0, 1⟩ (by decide)⟩

/-- Claim C6: for rho different from 0, ComputeSoundSpeedSquare(rho,e)
returns GetDpdrho + (GetPressure/rho)*GetBigGamma with no fatal path;
ComputeSoundSpeed signals fatal failure (none) iff that value is <= 0,
and otherwise returns its square root (carried as the radicand c2, whose
real square root squared recovers c2). -/
theorem C6_soundSpeed (vf : VarFcn) (rho e : ℚ) (_h : rho ≠ 0) :
    vf.ComputeSoundSpeedSquare rho e
      = vf.GetDpdrho rho e + vf.GetPressure rho e / rho * vf.GetBigGamma rho e ∧
    (vf.ComputeSoundSpeed rho e = none ↔ vf.ComputeSoundSpeedSquare rho e ≤ 0) ∧
    (0 < vf.ComputeSoundSpeedSquare rho e →
      vf.ComputeSoundSpeed rho e = some (vf.ComputeSoundSpeedSquare rho e) ∧
      Real.sqrt (vf.ComputeSoundSpeedSquare rho e : ℝ) ^ 2
        = ((vf.ComputeSoundSpeedSquare rho e : ℚ) : ℝ)) := by
  refine ⟨rfl, ?_, fun hpos => ⟨?_, ?_⟩⟩
  · simp only [VarFcn.ComputeSoundSpeed, VarFcn.ComputeSoundSpeedSquare]
    split <;> simp_all
  · simp only [VarFcn.ComputeSoundSpeedSquare] at hpos
    simp only [VarFcn.ComputeSoundSpeed, VarFcn.ComputeSoundSpeedSquare,
      if_neg (not_le.mpr hpos)]
  · exact Real.sq_sqrt (by exact_mod_cast hpos.le)

/-- Witness for C6 at the affine test variant with rho = e = 1, where the
squared sound speed is 1. -/
theorem C6_soundSpeed_witness :
    (1:ℚ) ≠ 0 ∧
    (vfAffine.ComputeSoundSpeedSquare 1 1
      = vfAffine.GetDpdrho 1 1 + vfAffine.GetPressure 1 1 / 1 * vfAffine.GetBigGamma 1 1 ∧
    (vfAffine.ComputeSoundSpeed 1 1 = none ↔ vfAffine.ComputeSoundSpeedSquare 1 1 ≤ 0) ∧
    (0 < vfAffine.ComputeSoundSpeedSquare 1 1 →
      vfAffine.ComputeSoundSpeed 1 1 = some (vfAffine.ComputeSoundSpeedSquare 1 1) ∧
      Real.sqrt (vfAffine.ComputeSoundSpeedSquare 1 1 : ℝ) ^ 2
        = ((vfAffine.ComputeSoundSpeedSquare 1 1 : ℚ) : ℝ))) :=
  ⟨by decide, C6_soundSpeed vfAffine 1 1 (by decide)⟩

/-- Counterexample to claim C1 as stated: on the all-zero test variant the
squared sound speed at V = (1,0,0,0,1) is exactly 0 (so c2 <= 0), yet
ComputeMachNumber does not signal fatal failure, because the source tests
c < 0 rather than c <= 0 before taking the square root. -/
theorem C1_machNumber_counterexample :
    vfZero.ComputeSoundSpeedSquare 1 (vfZero.GetInternalEnergyPerUnitMass 1 1) ≤ 0 ∧
    vfZero.ComputeMachNumber ⟨1, 0, 0, 0, 1⟩ ≠ none := by
  constructor <;>
    norm_num [vfZero, VarFcn.ComputeSoundSpeedSquare, VarFcn.ComputeMachNumber,
      Option.some_ne_none]

/-- Claim C1 (amended): ComputeMachNumber(V) computes e from (rho,p) and
c2 = ComputeSoundSpeedSquare(rho,e); it signals fatal failure exactly when
c2 < 0 (not c2 <= 0: the source tests c < 0), and when c2 >= 0 it returns
normally with value sqrt(V1^2+V2^2+V3^2)/sqrt(c2), carried here as the
payload pair (V1^2+V2^2+V3^2, c2); at c2 = 0 this is a division by zero
rather than a fatal signal. -/
theorem C1_machNumber (vf : VarFcn) (V : Vec5) :
    (vf.ComputeMachNumber V = none ↔
      vf.ComputeSoundSpeedSquare V.x0 (vf.GetInternalEnergyPerUnitMass V.x0 V.x4) < 0) ∧
    (0 ≤ vf.ComputeSoundSpeedSquare V.x0 (vf.GetInternalEnergyPerUnitMass V.x0 V.x4) →
      vf.ComputeMachNumber V =
        some (V.x1 * V.x1 + V.x2 * V.x2 + V.x3 * V.x3,
          vf.ComputeSoundSpeedSquare V.x0 (vf.GetInternalEnergyPerUnitMass V.x0 V.x4))) := by
  constructor
  · simp only [VarFcn.ComputeMachNumber]
    split <;> simp_all
  · intro h
    simp only [VarFcn.ComputeMachNumber, if_neg (not_lt.mpr h)]

/-- Witness for C1 (amended) at the affine test variant with
V = (1,0,0,0,1), where c2 = 1 >= 0 and the call returns normally. -/
theorem C1_machNumber_witness :
    0 ≤ vfAffine.ComputeSoundSpeedSquare 1 (vfAffine.GetInternalEnergyPerUnitMass 1 1) ∧
    vfAffine.ComputeMachNumber ⟨1, 0, 0, 0, 1⟩ =
      some (0 * 0 + 0 * 0 + 0 * 0,
        vfAffine.ComputeSoundSpeedSquare 1 (vfAffine.GetInternalEnergyPerUnitMass 1 1)) :=
  ⟨by norm_num [vfAffine, VarFcn.ComputeSoundSpeedSquare],
   (C1_machNumber vfAffine ⟨1, 0, 0, 0, 1⟩).2
     (by norm_num [vfAffine, VarFcn.ComputeSoundSpeedSquare])⟩

/-- Claim C9: each of the five contract relations of the base class
(an unimplemented variant) emits its diagnostic and terminates fatally
(modelled as Except.error carrying the printed message), for every input;
none of them returns a value through a normal path. -/
theorem C9_base_contract_fatal (rho e p : ℚ) :
    VarFcnBase.GetPressure rho e
      = Except.error "*** Error:  GetPressure Function not defined\n" ∧
    VarFcnBase.GetInternalEnergyPerUnitMass rho p
      = Except.error "*** Error:  GetInternalEnergyPerUnitMass Function not defined\n" ∧
    VarFcnBase.GetDensity p e
      = Except.error "*** Error:  GetDensity Function not defined\n" ∧
    VarFcnBase.GetDpdrho rho e
      = Except.error "*** Error:  GetDpdrho Function not defined\n" ∧
    VarFcnBase.GetBigGamma rho e
      = Except.error "*** Error:  GetBigGamma Function not defined\n" :=
  ⟨rfl, rfl, rfl, rfl, rfl⟩

namespace VarFcn

/-- Closed form of ClipDensityAndPressure: the clamped state, the
buffer update, and the flag, written with the two floor tests spelled
out. -/
theorem clip_result (vf : VarFcn) (V : Vec5) (U : Option Vec5) :
    vf.ClipDensityAndPressure V U =
      (⟨if V.x0 < vf.rhomin then vf.rhomin else V.x0, V.x1, V.x2, V.x3,
          if V.x4 < vf.pmin then vf.pmin else V.x4⟩,
       if V.x0 < vf.rhomin ∨ V.x4 < vf.pmin then
         Option.map (fun _ => vf.PrimitiveToConservative
           ⟨if V.x0 < vf.rhomin then vf.rhomin else V.x0, V.x1, V.x2, V.x3,
             if V.x4 < vf.pmin then vf.pmin else V.x4⟩) U
       else U,
       decide (V.x0 < vf.rhomin ∨ V.x4 < vf.pmin)) := by
  by_cases h1 : V.x0 < vf.rhomin <;> by_cases h2 : V.x4 < vf.pmin <;>
    simp [ClipDensityAndPressure, h1, h2]

/-- When the clip flag is set, the returned conservative buffer is the
clamped primitive state pushed through PrimitiveToConservative (a missing
buffer stays missing). -/
theorem clip_fired_buffer (vf : VarFcn) (V : Vec5) (U : Option Vec5)
    (h : (vf.ClipDensityAndPressure V U).2.2 = true) :
    (vf.ClipDensityAndPressure V U).2.1 =
      Option.map (fun _ => vf.PrimitiveToConservative (vf.ClipDensityAndPressure V U).1) U := by
  have hd : V.x0 < vf.rhomin ∨ V.x4 < vf.pmin := by
    rw [clip_result] at h
    simpa using h
  rw [clip_result]
  simp [hd]

end VarFcn

/-- Claim C3: after ClipDensityAndPressure the state satisfies
rho >= rhomin and p >= pmin; the returned flag is true iff the pre-call
state had rho < rhomin or p < pmin; and when the flag is set and a
conservative buffer was supplied, that buffer is PrimitiveToConservative
of the clamped state. -/
theorem C3_clip_bounds (vf : VarFcn) (V : Vec5) (U : Option Vec5) :
    vf.rhomin ≤ (vf.ClipDensityAndPressure V U).1.x0 ∧
    vf.pmin ≤ (vf.ClipDensityAndPressure V U).1.x4 ∧
    ((vf.ClipDensityAndPressure V U).2.2 = true ↔ (V.x0 < vf.rhomin ∨ V.x4 < vf.pmin)) ∧
    ((vf.ClipDensityAndPressure V U).2.2 = true → ∀ u, U = some u →
      (vf.ClipDensityAndPressure V U).2.1 =
        some (vf.PrimitiveToConservative (vf.ClipDensityAndPressure V U).1)) := by
  refine ⟨?_, ?_, ?_, fun h u hu => ?_⟩
  · rw [VarFcn.clip_result]
    dsimp only
    split_ifs with h1
    · exact le_rfl
    · exact le_of_not_lt h1
  · rw [VarFcn.clip_result]
    dsimp only
    split_ifs with h2
    · exact le_rfl
    · exact le_of_not_lt h2
  · rw [VarFcn.clip_result]
    simp
  · subst hu
    rw [vf.clip_fired_buffer V _ h]
    rfl

/-- Witness for C3: on the affine test variant (floors 1) the state
(1/2, 0, 0, 0, 1/2) with a supplied buffer is clipped and the buffer is
recomputed from the clamped state. -/
theorem C3_clip_bounds_witness :
    (vfAffine.ClipDensityAndPressure ⟨1/2, 0, 0, 0, 1/2⟩ (some ⟨0, 0, 0, 0, 0⟩)).2.2 = true ∧
    (vfAffine.ClipDensityAndPressure ⟨1/2, 0, 0, 0, 1/2⟩ (some ⟨0, 0, 0, 0, 0⟩)).2.1 =
      some (vfAffine.PrimitiveToConservative
        (vfAffine.ClipDensityAndPressure ⟨1/2, 0, 0, 0, 1/2⟩ (some ⟨0, 0, 0, 0, 0⟩)).1) :=
  ⟨by norm_num [vfAffine, VarFcn.ClipDensityAndPressure],
   (C3_clip_bounds vfAffine ⟨1/2, 0, 0, 0, 1/2⟩ (some ⟨0, 0, 0, 0, 0⟩)).2.2.2
     (by norm_num [vfAffine, VarFcn.ClipDensityAndPressure]) ⟨0, 0, 0, 0, 0⟩ rfl⟩

/-- Claim C4: ClipDensityAndPressure is idempotent: a second application
on the state and buffer produced by a first application changes neither
of them and reports that no clamp fired. -/
theorem C4_clip_idempotent (vf : VarFcn) (V : Vec5) (U : Option Vec5) :
    vf.ClipDensityAndPressure (vf.ClipDensityAndPressure V U).1
        (vf.ClipDensityAndPressure V U).2.1
      = ((vf.ClipDensityAndPressure V U).1, (vf.ClipDensityAndPressure V U).2.1, false) := by
  by_cases h1 : V.x0 < vf.rhomin <;> by_cases h2 : V.x4 < vf.pmin <;>
    simp [VarFcn.clip_result, h1, h2]

/-- Claim C10: ClipDensityAndPressure never changes the velocity
components V1, V2, V3, and when neither floor is violated on entry it
returns V and U unchanged with the flag false. -/
theorem C10_clip_frame (vf : VarFcn) (V : Vec5) (U : Option Vec5) :
    (vf.ClipDensityAndPressure V U).1.x1 = V.x1 ∧
    (vf.ClipDensityAndPressure V U).1.x2 = V.x2 ∧
    (vf.ClipDensityAndPressure V U).1.x3 = V.x3 ∧
    (vf.rhomin ≤ V.x0 → vf.pmin ≤ V.x4 →
      vf.ClipDensityAndPressure V U = (V, U, false)) := by
  refine ⟨?_, ?_, ?_, fun hr hp => ?_⟩
  · rw [VarFcn.clip_result]
  · rw [VarFcn.clip_result]
  · rw [VarFcn.clip_result]
  · simp [VarFcn.clip_result, not_lt.mpr hr, not_lt.mpr hp]

/-- Witness for C10 on the affine test variant (floors 1): the admissible
state (2, 3, 4, 5, 6) passes through unchanged. -/
theorem C10_clip_frame_witness :
    vfAffine.rhomin ≤ (2:ℚ) ∧ vfAffine.pmin ≤ (6:ℚ) ∧
    vfAffine.ClipDensityAndPressure ⟨2, 3, 4, 5, 6⟩ none = (⟨2, 3, 4, 5, 6⟩, none, false) :=
  ⟨by norm_num [vfAffine], by norm_num [vfAffine],
   (C10_clip_frame vfAffine ⟨2, 3, 4, 5, 6⟩ none).2.2.2
     (by norm_num [vfAffine]) (by norm_num [vfAffine])⟩

/-- Claim C2: with nonzero densities and a contract whose GetPressure and
GetInternalEnergyPerUnitMass are mutual inverses at fixed rho, the two
state transforms are exact inverses of each other, in both directions. -/
theorem C2_roundtrip (vf : VarFcn) (V U : Vec5) (hV : V.x0 ≠ 0) (hU : U.x0 ≠ 0)
    (hPE : ∀ rho p, vf.GetPressure rho (vf.GetInternalEnergyPerUnitMass rho p) = p)
    (hEP : ∀ rho e, vf.GetInternalEnergyPerUnitMass rho (vf.GetPressure rho e) = e) :
    vf.ConservativeToPrimitive (vf.PrimitiveToConservative V) = V ∧
    vf.PrimitiveToConservative (vf.ConservativeToPrimitive U) = U :=
  ⟨vf.consToPrim_primToCons V hV (hPE V.x0),
   vf.primToCons_consToPrim U hU (hEP U.x0)⟩

/-- Witness for C2 at the concrete state (1, 0, 0, 0, 1) of the affine
test variant, whose pressure/energy relations are exact mutual inverses. -/
theorem C2_roundtrip_witness :
    (1:ℚ) ≠ 0 ∧
    (vfAffine.ConservativeToPrimitive (vfAffine.PrimitiveToConservative ⟨1, 0, 0, 0, 1⟩)
        = ⟨1, 0, 0, 0, 1⟩ ∧
      vfAffine.PrimitiveToConservative (vfAffine.ConservativeToPrimitive ⟨1, 0, 0, 0, 1⟩)
        = ⟨1, 0, 0, 0, 1⟩) :=
  ⟨by decide,
   C2_roundtrip vfAffine ⟨1, 0, 0, 0, 1⟩ ⟨1, 0, 0, 0, 1⟩ (by decide) (by decide)
     (fun rho p => by simp [vfAffine]) (fun rho e => by simp [vfAffine])⟩

/-- Counterexample to claim C5 as stated: on the shift test variant
(mutual inverses at every fixed rho, no floors) the state (0,0,0,0,-1)
with a supplied buffer is clipped (flag true), the post-call buffer is
(0,0,0,0,0), yet ConservativeToPrimitive of that buffer differs from the
post-call state, because the post-call density is 0 and the inverse
round trip requires a nonzero density. -/
theorem C5_clip_consistency_counterexample :
    (∀ rho p, vfShift.GetPressure rho (vfShift.GetInternalEnergyPerUnitMass rho p) = p) ∧
    (∀ rho e, vfShift.GetInternalEnergyPerUnitMass rho (vfShift.GetPressure rho e) = e) ∧
    (vfShift.ClipDensityAndPressure ⟨0, 0, 0, 0, -1⟩ (some ⟨0, 0, 0, 0, 0⟩)).2.2 = true ∧
    (vfShift.ClipDensityAndPressure ⟨0, 0, 0, 0, -1⟩ (some ⟨0, 0, 0, 0, 0⟩)).2.1 =
      some ⟨0, 0, 0, 0, 0⟩ ∧
    vfShift.ConservativeToPrimitive ⟨0, 0, 0, 0, 0⟩ ≠
      (vfShift.ClipDensityAndPressure ⟨0, 0, 0, 0, -1⟩ (some ⟨0, 0, 0, 0, 0⟩)).1 := by
  refine ⟨fun rho p => by simp [vfShift], fun rho e => by simp [vfShift], ?_, ?_, ?_⟩ <;>
    norm_num [vfShift, VarFcn.ClipDensityAndPressure, VarFcn.PrimitiveToConservative,
      VarFcn.ConservativeToPrimitive, Vec5.mk.injEq]

/-- Claim C5 (amended): if ClipDensityAndPressure with a supplied buffer
reports that a clamp fired, and GetPressure inverts
GetInternalEnergyPerUnitMass at fixed rho, and additionally the post-call
density is nonzero, then the post-call buffer is PrimitiveToConservative
of the post-call state and ConservativeToPrimitive of that buffer
reproduces the post-call state exactly. -/
theorem C5_clip_consistency (vf : VarFcn) (V u : Vec5)
    (hPE : ∀ rho p, vf.GetPressure rho (vf.GetInternalEnergyPerUnitMass rho p) = p)
    (hρ : (vf.ClipDensityAndPressure V (some u)).1.x0 ≠ 0)
    (hclip : (vf.ClipDensityAndPressure V (some u)).2.2 = true) :
    (vf.ClipDensityAndPressure V (some u)).2.1 =
      some (vf.PrimitiveToConservative (vf.ClipDensityAndPressure V (some u)).1) ∧
    vf.ConservativeToPrimitive
        (vf.PrimitiveToConservative (vf.ClipDensityAndPressure V (some u)).1)
      = (vf.ClipDensityAndPressure V (some u)).1 := by
  constructor
  · rw [vf.clip_fired_buffer V (some u) hclip]
    rfl
  · exact vf.consToPrim_primToCons _ hρ (hPE _)

/-- Witness for C5 (amended) on the affine test variant: the state
(1/2, 0, 0, 0, 1/2) is clipped to (1, 0, 0, 0, 1), whose density is
nonzero, and the recomputed buffer converts back to it exactly. -/
theorem C5_clip_consistency_witness :
    (vfAffine.ClipDensityAndPressure ⟨1/2, 0, 0, 0, 1/2⟩ (some ⟨0, 0, 0, 0, 0⟩)).1.x0 ≠ 0 ∧
    (vfAffine.ClipDensityAndPressure ⟨1/2, 0, 0, 0, 1/2⟩ (some ⟨0, 0, 0, 0, 0⟩)).2.2 = true ∧
    ((vfAffine.ClipDensityAndPressure ⟨1/2, 0, 0, 0, 1/2⟩ (some ⟨0, 0, 0, 0, 0⟩)).2.1 =
        some (vfAffine.PrimitiveToConservative
          (vfAffine.ClipDensityAndPressure ⟨1/2, 0, 0, 0, 1/2⟩ (some ⟨0, 0, 0, 0, 0⟩)).1) ∧
      vfAffine.ConservativeToPrimitive
          (vfAffine.PrimitiveToConservative
            (vfAffine.ClipDensityAndPressure ⟨1/2, 0, 0, 0, 1/2⟩ (some ⟨0, 0, 0, 0, 0⟩)).1)
        = (vfAffine.ClipDensityAndPressure ⟨1/2, 0, 0, 0, 1/2⟩ (some ⟨0, 0, 0, 0, 0⟩)).1) :=
  ⟨by norm_num [vfAffine, VarFcn.ClipDensityAndPressure],
   by norm_num [vfAffine, VarFcn.ClipDensityAndPressure],
   C5_clip_consistency vfAffine ⟨1/2, 0, 0, 0, 1/2⟩ ⟨0, 0, 0, 0, 0⟩
     (fun rho p => by simp [vfAffine])
     (by norm_num [vfAffine, VarFcn.ClipDensityAndPressure])
     (by norm_num [vfAffine, VarFcn.ClipDensityAndPressure])⟩
